import Mathlib

/-!
Shallow embedding of `radrecord/rad_record.py` (the RAD record format:
a flat record value, a validity predicate, and a normalization pipeline
for delimited-list and boolean-like fields), together with theorems
settling the specification claims about it.

Modelling conventions:
* Python `None` becomes `Option.none`; optional string fields are `Option String`.
* Python strings are modelled as Lean `String` (sequences of characters);
  `str.isspace` / `str.strip` use Python's whitespace set
  `' ', '\t', '\n', '\r', '\x0b', '\x0c'`, and `lower` is modelled by
  ASCII lowercasing (all the string constants the code compares against
  are ASCII).
* Python `str.split(';')` (single-character separator) is modelled by
  `splitChar` / `pySplit` below, which reproduce its semantics exactly,
  including `"".split(';') == ['']` and empty segments between
  consecutive separators.
* `list(set(...))` is modelled by `List.dedup`; the claims about the
  resulting lists are stated up to membership and cardinality, since the
  spec declares element order insignificant.
* The loosely-typed values accepted by `convert_boolean` are modelled by
  the closed variant type `PyVal` (absent, boolean, text, integer,
  float); floats are represented by rationals, on which comparison with
  the exact values 0 and 1 agrees with float comparison.
* `datetime.strptime(s, "%Y-%m-%d")` succeeds exactly when `s` splits on
  `'-'` into three tokens accepted by CPython's `_strptime` patterns
  (`%Y` is exactly four digits; `%m` is `1[0-2]|0[1-9]|[1-9]`; `%d` is
  `3[0-1]|[1-2]\d|0[1-9]|[1-9]| [1-9]`) and the resulting year/month/day
  form a real calendar date (`datetime` requires `1 <= year <= 9999` and
  the day to fit the Gregorian month length). `strptimeYmdOk` encodes
  this acceptance condition.
-/

/-- The whitespace characters recognised by Python's `str.isspace` /
`str.strip` for byte strings. -/
def pySpaceChars : List Char := [' ', '\t', '\n', '\r', '\x0b', '\x0c']

def pyIsSpaceChar (c : Char) : Bool := pySpaceChars.contains c

/-- Python `s.isspace()`: non-empty and all characters whitespace. -/
def pyIsspace (s : String) : Bool := !s.data.isEmpty && s.data.all pyIsSpaceChar

/-- The test `len(s) == 0 or s.isspace()` used throughout the source. -/
def pyBlank (s : String) : Bool := s.data.isEmpty || pyIsspace s

/-- Strip leading and trailing whitespace from a character list. -/
def stripChars (l : List Char) : List Char :=
  ((l.dropWhile pyIsSpaceChar).reverse.dropWhile pyIsSpaceChar).reverse

/-- Python `s.strip()`. -/
def pyStrip (s : String) : String := String.mk (stripChars s.data)

/-- Python `s.lower()` (ASCII lowercasing). -/
def pyLower (s : String) : String := String.mk (s.data.map Char.toLower)

/-- Python `s.split(sep)` for a single-character separator, on character
lists: `splitChar sep [] = [[]]`, and consecutive separators produce
empty segments. -/
def splitChar (sep : Char) : List Char → List (List Char)
  | [] => [[]]
  | c :: rest =>
    match splitChar sep rest with
    | [] => if c = sep then [[], []] else [[c]]
    | h :: t => if c = sep then [] :: h :: t else (c :: h) :: t

/-- Python `s.split(sep)` on strings. -/
def pySplit (sep : Char) (s : String) : List String :=
  (splitChar sep s.data).map String.mk

/-- The lowercase strings treated as true (`true_values` in the source). -/
def true_values : List String := ["true", "t", "yes", "y", "1"]

/-- The lowercase strings treated as false (`false_values` in the source). -/
def false_values : List String := ["false", "f", "no", "n", "0"]

/-- The closed variant type of loosely-typed values the source's
`convert_boolean` dispatches on: `None`, `bool`, `str`, `int`, `float`
(floats as exact rationals). -/
inductive PyVal where
  | none
  | bool (b : Bool)
  | str (s : String)
  | int (n : Int)
  | float (q : Rat)
deriving DecidableEq

/-- Embedding of `convert_boolean` from `rad_record.py`: coerce a
loosely-typed value to `True`, `False`, or `None`. -/
def convert_boolean (boolVal : PyVal) : Option Bool :=
  match boolVal with
  | PyVal.none => Option.none
  | PyVal.bool b => Option.some b
  | PyVal.str s =>
    if s.data.isEmpty || pyIsspace s then Option.none
    else if pyLower (pyStrip s) ∈ true_values then Option.some true
    else if pyLower (pyStrip s) ∈ false_values then Option.some false
    else Option.none
  | PyVal.int n =>
    if n = 1 then Option.some true
    else if n = 0 then Option.some false
    else Option.none
  | PyVal.float q =>
    if q = 1 then Option.some true
    else if q = 0 then Option.some false
    else Option.none

/-- Embedding of the `RadRecord` named tuple (final field set of
`rad_record.py`). `visible` holds a loosely-typed value (the constructor
defaults it to `True`, and callers may pass `None` or other values). -/
structure RadRecord where
  name : Option String
  organization : Option String
  description : Option String
  address : Option String
  street : Option String
  city : Option String
  state : Option String
  country : Option String
  zipcode : Option String
  email : Option String
  phone : Option String
  fax : Option String
  url : Option String
  source : Option String
  category_name : Option String
  category_names : Option (List String)
  population_names : Option String
  population_tags : Option (List String)
  procedure_type : Option String
  hours : Option String
  npi : Option String
  visible : PyVal
  notes : Option String
  date_verified : Option String
deriving DecidableEq

/-- Embedding of the `rad_record` convenience constructor with every
argument given explicitly (the Python keyword parameters appear here in
the signature order of the source, which lists `state, zipcode, country`
while the tuple stores `state, country, zipcode`; the keyword passing in
the source routes each value to its correct field, as reproduced here). -/
def rad_record (name organization description address street city state
    zipcode country email phone fax url source category_name : Option String)
    (category_names : Option (List String))
    (population_names : Option String)
    (population_tags : Option (List String))
    (procedure_type hours npi : Option String)
    (visible : PyVal)
    (notes date_verified : Option String) : RadRecord :=
  ⟨name, organization, description, address, street, city, state, country,
    zipcode, email, phone, fax, url, source, category_name, category_names,
    population_names, population_tags, procedure_type, hours, npi, visible,
    notes, date_verified⟩

/-- The `rad_record` constructor applied with all optional parameters at
their defaults (every field `None` except `visible`, which defaults to
`True`). -/
def rad_record_default (name : Option String) : RadRecord :=
  rad_record name Option.none Option.none Option.none Option.none Option.none
    Option.none Option.none Option.none Option.none Option.none Option.none
    Option.none Option.none Option.none Option.none Option.none Option.none
    Option.none Option.none Option.none (PyVal.bool true) Option.none
    Option.none

/-- The guard `x is not None and len(x) > 0` used on the derived list
fields by the conversion functions. -/
def hasItems (o : Option (List String)) : Bool :=
  match o with
  | Option.none => false
  | Option.some l => !l.isEmpty

/-- Embedding of `parse_delimited_list`: split on `';'`, keep the
segments that are non-empty and not pure whitespace, strip each, and
deduplicate (the source materialises a `set` back into a `list`). -/
def parse_delimited_list (liststr : Option String) : List String :=
  match liststr with
  | Option.none => []
  | Option.some s =>
    if pyBlank s then []
    else (((pySplit ';' s).filter (fun cat => !pyBlank cat)).map pyStrip).dedup

/-- The non-null branch of `convert_category_name`. -/
def convert_category_nameR (r : RadRecord) : RadRecord :=
  if hasItems r.category_names then r
  else { r with category_names := Option.some (parse_delimited_list r.category_name) }

/-- Embedding of `convert_category_name` (a null record propagates). -/
def convert_category_name (record : Option RadRecord) : Option RadRecord :=
  match record with
  | Option.none => Option.none
  | Option.some r => Option.some (convert_category_nameR r)

/-- The non-null branch of `convert_population_names`. -/
def convert_population_namesR (r : RadRecord) : RadRecord :=
  if hasItems r.population_tags then r
  else { r with population_tags := Option.some (parse_delimited_list r.population_names) }

/-- Embedding of `convert_population_names` (a null record propagates). -/
def convert_population_names (record : Option RadRecord) : Option RadRecord :=
  match record with
  | Option.none => Option.none
  | Option.some r => Option.some (convert_population_namesR r)

/-- The non-null branch of `normalize_record`: category conversion then
population conversion. -/
def normalizeR (r : RadRecord) : RadRecord :=
  convert_population_namesR (convert_category_nameR r)

/-- Embedding of `normalize_record`: null propagates, otherwise
`record.convert_category_name().convert_population_names()`. -/
def normalize_record (record : Option RadRecord) : Option RadRecord :=
  match record with
  | Option.none => Option.none
  | Option.some r => convert_population_names (convert_category_name (Option.some r))

/-- Numeric value of a digit string (as read by Python `int`). -/
def natOfDigits (l : List Char) : Nat :=
  l.foldl (fun a c => 10 * a + (c.toNat - 48)) 0

def strVal (s : String) : Nat := natOfDigits s.data

/-- Strings matched by the `%Y` pattern of CPython's `_strptime` (exactly
four digits), further restricted by `datetime` requiring `year >= 1`. -/
def yearTokOk (s : String) : Bool :=
  s.data.length == 4 && s.data.all Char.isDigit && decide (1 ≤ strVal s)

/-- Strings matched by the `%m` pattern `1[0-2]|0[1-9]|[1-9]`. -/
def monthTokOk (s : String) : Bool :=
  (s.data.length == 1 || s.data.length == 2) && s.data.all Char.isDigit &&
    decide (1 ≤ strVal s ∧ strVal s ≤ 12)

/-- Strings matched by the digit alternatives of the `%d` pattern
`3[0-1]|[1-2]\d|0[1-9]|[1-9]`. -/
def dayDigitsOk (s : String) : Bool :=
  (s.data.length == 1 || s.data.length == 2) && s.data.all Char.isDigit &&
    decide (1 ≤ strVal s ∧ strVal s ≤ 31)

/-- Strings matched by the space-padded alternative ` [1-9]` of `%d`. -/
def daySpaceOk (s : String) : Bool :=
  match s.data with
  | [c1, c2] => c1 = ' ' && c2.isDigit && !(c2 = '0')
  | _ => false

def dayTokOk (s : String) : Bool := dayDigitsOk s || daySpaceOk s

def isLeapYear (y : Nat) : Bool :=
  y % 4 == 0 && (y % 100 != 0 || y % 400 == 0)

def daysInMonth (y m : Nat) : Nat :=
  if m == 2 then (if isLeapYear y then 29 else 28)
  else if m == 4 || m == 6 || m == 9 || m == 11 then 30
  else 31

/-- Acceptance condition of
`datetime.strptime(s, "%Y-%m-%d")`: the string decomposes on `'-'` into
a year, month and day token of the library's patterns, and the values
form a real calendar date. -/
def strptimeYmdOk (s : String) : Bool :=
  match pySplit '-' s with
  | [ys, ms, ds] =>
    yearTokOk ys && monthTokOk ms && dayTokOk ds &&
      decide (strVal ds ≤ daysInMonth (strVal ys) (strVal ms))
  | _ => false

/-- Embedding of `is_valid` from `rad_record.py`. -/
def is_valid (record : RadRecord) : Bool :=
  match record.name with
  | Option.none => false
  | Option.some n =>
    if pyBlank n then false
    else
      match record.date_verified with
      | Option.none => true
      | Option.some d => if pyBlank d then true else strptimeYmdOk d

/-- The date format as worded by the specification claim: `YYYY-MM-DD`
with a four-digit year, a two-digit month and a two-digit day, matched
exactly. This definition follows the claim's words (not the source) and
exists to compare the claim against the code's actual acceptance. -/
def specStrictYmdFormat (s : String) : Bool :=
  match pySplit '-' s with
  | [ys, ms, ds] =>
    ys.data.length == 4 && ys.data.all Char.isDigit &&
      ms.data.length == 2 && ms.data.all Char.isDigit &&
      ds.data.length == 2 && ds.data.all Char.isDigit
  | _ => false

/-- Transparent characterization of the strings accepted by
`datetime.strptime(s, "%Y-%m-%d")`. -/
def StrptimeSpec (s : String) : Prop :=
  ∃ ys ms ds, pySplit '-' s = [ys, ms, ds] ∧
    (ys.data.length = 4 ∧ (∀ c ∈ ys.data, c.isDigit = true) ∧ 1 ≤ strVal ys) ∧
    ((ms.data.length = 1 ∨ ms.data.length = 2) ∧ (∀ c ∈ ms.data, c.isDigit = true) ∧
      1 ≤ strVal ms ∧ strVal ms ≤ 12) ∧
    (((ds.data.length = 1 ∨ ds.data.length = 2) ∧ (∀ c ∈ ds.data, c.isDigit = true) ∧
      1 ≤ strVal ds ∧ strVal ds ≤ 31) ∨
      (∃ c, ds.data = [' ', c] ∧ c.isDigit = true ∧ c ≠ '0')) ∧
    strVal ds ≤ daysInMonth (strVal ys) (strVal ms)

/-- A canonical derived list: no duplicates, and every element is
non-empty, not pure whitespace, and already trimmed. -/
def goodList (l : List String) : Prop :=
  l.Nodup ∧ ∀ x ∈ l, ¬(x = "") ∧ pyIsspace x = false ∧ pyStrip x = x

/-- The record built by the repository's own `test_normalize_record`
(restricted to the fields that exist on the tuple: the test additionally
passes `is_icath`, `is_wpath`, `sliding_scale` and
`wheelchair_accessible`, which the `RadRecord` named tuple does not
declare at all). -/
def c1Record : RadRecord :=
  { rad_record_default (Option.some "Record") with
      population_names := Option.some "Population 1; Population 2",
      category_name := Option.some "Category A",
      visible := PyVal.none }

/-- The value `normalize_record` actually produces on `c1Record`. -/
def c1After : RadRecord := normalizeR c1Record

/-- A record whose `date_verified` has a single-digit month. -/
def c2CounterRec : RadRecord :=
  { rad_record_default (Option.some "Valid") with
      date_verified := Option.some "2015-8-27" }

/-- A valid-name record with `date_verified = "9/9/99"`. -/
def c2BadDateRec : RadRecord :=
  { rad_record_default (Option.some "Valid") with
      date_verified := Option.some "9/9/99" }

/-- A valid-name record with `date_verified = "2015-08-27"`. -/
def c2GoodDateRec : RadRecord :=
  { rad_record_default (Option.some "Valid") with
      date_verified := Option.some "2015-08-27" }

/-- The record of the spec's pre-populated-categories example. -/
def c6Rec : RadRecord :=
  { rad_record_default (Option.some "Record") with
      category_name := Option.some "New Category 1",
      category_names := Option.some ["Category A", "Category B"] }

/-- A record produced by the constructor with defaults only. -/
def c9RecA : RadRecord := rad_record_default (Option.some "Entity")

/-- A record agreeing with `c9RecA` on `name` and `date_verified` but
differing in every other field. -/
def c9RecB : RadRecord :=
  rad_record (Option.some "Entity") (Option.some "Org") (Option.some "Desc")
    (Option.some "Addr") (Option.some "Street") (Option.some "City")
    (Option.some "State") (Option.some "60601") (Option.some "US")
    (Option.some "a@b.c") (Option.some "555") (Option.some "556")
    (Option.some "http") (Option.some "Src") (Option.some "Cat")
    (Option.some ["C1"]) (Option.some "Pop") (Option.some ["P1"])
    (Option.some "Proc") (Option.some "9-5") (Option.some "123")
    (PyVal.bool false) (Option.some "Notes") Option.none

/-- A record whose derived list fields are produced by the pipeline. -/
def c10Rec : RadRecord :=
  { rad_record_default (Option.some "Entity 2") with
      category_name := Option.some " Cat A ; Cat B ; Cat A " }

theorem hasItems_none : hasItems Option.none = false := rfl

theorem hasItems_some (l : List String) : hasItems (Option.some l) = !l.isEmpty := rfl

theorem String_eq_empty_iff (s : String) : s = "" ↔ s.data = [] := by
  rw [String.ext_iff]

theorem pyBlank_iff_all (s : String) :
    pyBlank s = true ↔ ∀ c ∈ s.data, pyIsSpaceChar c = true := by
  unfold pyBlank pyIsspace
  rcases hd : s.data with _ | ⟨a, t⟩
  · simp [hd]
  · simp [hd, List.all_eq_true]

theorem dropWhile_eq_nil_iff_all (p : Char → Bool) (l : List Char) :
    l.dropWhile p = [] ↔ ∀ c ∈ l, p c = true := by
  induction l with
  | nil => simp
  | cons a t ih =>
    by_cases h : p a = true
    · simp [List.dropWhile_cons, h, ih]
    · rw [List.dropWhile_cons, if_neg (by simp [h])]
      refine iff_of_false (by simp) fun hall => ?_
      exact h (hall a (List.mem_cons_self a t))

theorem head?_dropWhile_false (p : Char → Bool) (l : List Char) :
    ∀ c, (l.dropWhile p).head? = Option.some c → p c = false := by
  induction l with
  | nil => intro c hc; simp at hc
  | cons a t ih =>
    intro c hc
    by_cases h : p a = true
    · rw [List.dropWhile_cons, if_pos h] at hc
      exact ih c hc
    · rw [List.dropWhile_cons, if_neg (by simp [h])] at hc
      simp only [List.head?_cons, Option.some.injEq] at hc
      subst hc
      exact Bool.not_eq_true _ ▸ h

theorem getLast?_dropWhile_some (p : Char → Bool) (l : List Char) :
    ∀ c, (l.dropWhile p).getLast? = Option.some c → l.getLast? = Option.some c := by
  induction l with
  | nil => intro c hc; simp at hc
  | cons a t ih =>
    intro c hc
    by_cases h : p a = true
    · rw [List.dropWhile_cons, if_pos h] at hc
      have ht := ih c hc
      cases t with
      | nil => simp at ht
      | cons b u => rw [List.getLast?_cons_cons]; exact ht
    · rw [List.dropWhile_cons, if_neg (by simp [h])] at hc
      exact hc

theorem stripChars_eq_nil_iff (l : List Char) :
    stripChars l = [] ↔ ∀ c ∈ l, pyIsSpaceChar c = true := by
  unfold stripChars
  rw [List.reverse_eq_nil_iff, dropWhile_eq_nil_iff_all]
  constructor
  · intro h c hc
    have hsplit := List.takeWhile_append_dropWhile pyIsSpaceChar l
    rw [← hsplit] at hc
    rcases List.mem_append.mp hc with h1 | h2
    · exact List.mem_takeWhile_imp h1
    · exact h c (List.mem_reverse.mpr h2)
  · intro h c hc
    apply h
    have hc2 := List.mem_reverse.mp hc
    rw [← List.takeWhile_append_dropWhile pyIsSpaceChar l]
    exact List.mem_append.mpr (Or.inr hc2)

theorem pyStrip_eq_empty_iff (s : String) : pyStrip s = "" ↔ pyBlank s = true := by
  unfold pyStrip
  rw [String_eq_empty_iff, pyBlank_iff_all]
  exact stripChars_eq_nil_iff s.data

theorem head?_stripChars_false (l : List Char) :
    ∀ c, (stripChars l).head? = Option.some c → pyIsSpaceChar c = false := by
  unfold stripChars
  intro c hc
  rw [List.head?_reverse] at hc
  have h2 := getLast?_dropWhile_some pyIsSpaceChar
    (List.dropWhile pyIsSpaceChar l).reverse c hc
  rw [List.getLast?_reverse] at h2
  exact head?_dropWhile_false pyIsSpaceChar l c h2

theorem getLast?_stripChars_false (l : List Char) :
    ∀ c, (stripChars l).getLast? = Option.some c → pyIsSpaceChar c = false := by
  unfold stripChars
  intro c hc
  rw [List.getLast?_reverse] at hc
  exact head?_dropWhile_false pyIsSpaceChar _ c hc

theorem stripChars_of_trimmed (l : List Char)
    (h1 : ∀ c, l.head? = Option.some c → pyIsSpaceChar c = false)
    (h2 : ∀ c, l.getLast? = Option.some c → pyIsSpaceChar c = false) :
    stripChars l = l := by
  unfold stripChars
  have hd : l.dropWhile pyIsSpaceChar = l := by
    cases l with
    | nil => rfl
    | cons a t =>
      rw [List.dropWhile_cons]
      simp [h1 a rfl]
  rw [hd]
  rcases hr : l.reverse with _ | ⟨b, u⟩
  · have : l = [] := List.reverse_eq_nil_iff.mp hr
    subst this
    rfl
  · have hb : pyIsSpaceChar b = false := by
      apply h2 b
      rw [← List.head?_reverse l, hr]
      rfl
    rw [List.dropWhile_cons, if_neg (by simp [hb])]
    rw [← hr, List.reverse_reverse]

theorem stripChars_idem (l : List Char) : stripChars (stripChars l) = stripChars l :=
  stripChars_of_trimmed _ (head?_stripChars_false l) (getLast?_stripChars_false l)

theorem pyStrip_idem (s : String) : pyStrip (pyStrip s) = pyStrip s := by
  show String.mk (stripChars (stripChars s.data)) = String.mk (stripChars s.data)
  rw [stripChars_idem]

theorem pyIsspace_pyStrip_false (s : String) (h : ¬(pyStrip s = "")) :
    pyIsspace (pyStrip s) = false := by
  rcases hb : pyIsspace (pyStrip s) with _ | _
  · rfl
  · exfalso
    apply h
    rw [← pyStrip_idem s]
    apply (pyStrip_eq_empty_iff (pyStrip s)).mpr
    unfold pyBlank
    rw [hb]
    simp

theorem mem_parse_iff (s : String) (hs : pyBlank s = false) (x : String) :
    x ∈ parse_delimited_list (Option.some s) ↔
      ∃ seg ∈ pySplit ';' s, ¬(pyStrip seg = "") ∧ pyStrip seg = x := by
  simp only [parse_delimited_list]
  rw [if_neg (by simp [hs])]
  rw [List.mem_dedup, List.mem_map]
  constructor
  · rintro ⟨seg, hseg, hstrip⟩
    have hf := List.mem_filter.mp hseg
    refine ⟨seg, hf.1, ?_, hstrip⟩
    intro he
    have hbt := (pyStrip_eq_empty_iff seg).mp he
    rw [hbt] at hf
    simp at hf
  · rintro ⟨seg, hseg, hne, hstrip⟩
    refine ⟨seg, List.mem_filter.mpr ⟨hseg, ?_⟩, hstrip⟩
    rcases hb : pyBlank seg with _ | _
    · simp
    · exact absurd ((pyStrip_eq_empty_iff seg).mpr hb) hne

theorem parse_goodList (o : Option String) : goodList (parse_delimited_list o) := by
  constructor
  · rcases o with _ | s
    · exact List.nodup_nil
    · simp only [parse_delimited_list]
      split
      · exact List.nodup_nil
      · exact List.nodup_dedup _
  · intro x hx
    rcases o with _ | s
    · simp [parse_delimited_list] at hx
    · rcases hb : pyBlank s with _ | _
      · rw [mem_parse_iff s hb] at hx
        obtain ⟨seg, _, hne, hstrip⟩ := hx
        subst hstrip
        exact ⟨hne, pyIsspace_pyStrip_false seg hne, pyStrip_idem seg⟩
      · simp only [parse_delimited_list] at hx
        rw [if_pos (by simp [hb])] at hx
        simp at hx

theorem popR_category_names (r : RadRecord) :
    (convert_population_namesR r).category_names = r.category_names := by
  unfold convert_population_namesR
  split <;> rfl

theorem popR_category_name (r : RadRecord) :
    (convert_population_namesR r).category_name = r.category_name := by
  unfold convert_population_namesR
  split <;> rfl

theorem catR_population_tags (r : RadRecord) :
    (convert_category_nameR r).population_tags = r.population_tags := by
  unfold convert_category_nameR
  split <;> rfl

theorem catR_population_names (r : RadRecord) :
    (convert_category_nameR r).population_names = r.population_names := by
  unfold convert_category_nameR
  split <;> rfl

theorem update_category_names_self (x : RadRecord) (v : Option (List String))
    (h : x.category_names = v) : { x with category_names := v } = x := by
  cases x
  subst h
  rfl

theorem update_population_tags_self (x : RadRecord) (v : Option (List String))
    (h : x.population_tags = v) : { x with population_tags := v } = x := by
  cases x
  subst h
  rfl

theorem catR_of_has (x : RadRecord) (h : hasItems x.category_names = true) :
    convert_category_nameR x = x := by
  unfold convert_category_nameR
  rw [if_pos h]

theorem catR_of_not (x : RadRecord) (h : hasItems x.category_names = false) :
    convert_category_nameR x
      = { x with category_names := Option.some (parse_delimited_list x.category_name) } := by
  unfold convert_category_nameR
  rw [if_neg (by simp [h])]

theorem popR_of_has (x : RadRecord) (h : hasItems x.population_tags = true) :
    convert_population_namesR x = x := by
  unfold convert_population_namesR
  rw [if_pos h]

theorem popR_of_not (x : RadRecord) (h : hasItems x.population_tags = false) :
    convert_population_namesR x
      = { x with population_tags := Option.some (parse_delimited_list x.population_names) } := by
  unfold convert_population_namesR
  rw [if_neg (by simp [h])]

theorem catR_idem (r : RadRecord) :
    convert_category_nameR (convert_category_nameR r) = convert_category_nameR r := by
  rcases h : hasItems r.category_names with _ | _
  · have e1 := catR_of_not r h
    rw [e1]
    rcases hp : hasItems (Option.some (parse_delimited_list r.category_name)) with _ | _
    · rw [catR_of_not _ hp]
    · rw [catR_of_has _ hp]
  · have e0 := catR_of_has r h
    rw [e0, e0]

theorem popR_idem (r : RadRecord) :
    convert_population_namesR (convert_population_namesR r) = convert_population_namesR r := by
  rcases h : hasItems r.population_tags with _ | _
  · have e1 := popR_of_not r h
    rw [e1]
    rcases hp : hasItems (Option.some (parse_delimited_list r.population_names)) with _ | _
    · rw [popR_of_not _ hp]
    · rw [popR_of_has _ hp]
  · have e0 := popR_of_has r h
    rw [e0, e0]

theorem normalizeR_idem (r : RadRecord) : normalizeR (normalizeR r) = normalizeR r := by
  have hyy : convert_category_nameR (convert_category_nameR r) = convert_category_nameR r :=
    catR_idem r
  show convert_population_namesR (convert_category_nameR
      (convert_population_namesR (convert_category_nameR r)))
    = convert_population_namesR (convert_category_nameR r)
  have hcz : convert_category_nameR (convert_population_namesR (convert_category_nameR r))
      = convert_population_namesR (convert_category_nameR r) := by
    rcases hg : hasItems (convert_category_nameR r).category_names with _ | _
    · have hcat : (convert_category_nameR r).category_names
          = Option.some (parse_delimited_list (convert_category_nameR r).category_name) := by
        conv_lhs => rw [← hyy]
        rw [catR_of_not _ hg]
      have hgz : hasItems
          (convert_population_namesR (convert_category_nameR r)).category_names = false := by
        rw [popR_category_names]
        exact hg
      rw [catR_of_not _ hgz]
      apply update_category_names_self
      rw [popR_category_names, popR_category_name]
      exact hcat
    · have hgz : hasItems
          (convert_population_namesR (convert_category_nameR r)).category_names = true := by
        rw [popR_category_names]
        exact hg
      exact catR_of_has _ hgz
  rw [hcz]
  exact popR_idem (convert_category_nameR r)

theorem yearTok_iff (s : String) :
    yearTokOk s = true ↔
      (s.data.length = 4 ∧ (∀ c ∈ s.data, c.isDigit = true) ∧ 1 ≤ strVal s) := by
  unfold yearTokOk
  simp [List.all_eq_true, and_assoc]

theorem monthTok_iff (s : String) :
    monthTokOk s = true ↔
      ((s.data.length = 1 ∨ s.data.length = 2) ∧ (∀ c ∈ s.data, c.isDigit = true) ∧
        1 ≤ strVal s ∧ strVal s ≤ 12) := by
  unfold monthTokOk
  simp [List.all_eq_true, and_assoc]

theorem dayDigits_iff (s : String) :
    dayDigitsOk s = true ↔
      ((s.data.length = 1 ∨ s.data.length = 2) ∧ (∀ c ∈ s.data, c.isDigit = true) ∧
        1 ≤ strVal s ∧ strVal s ≤ 31) := by
  unfold dayDigitsOk
  simp [List.all_eq_true, and_assoc]

theorem daySpace_iff (s : String) :
    daySpaceOk s = true ↔ ∃ c, s.data = [' ', c] ∧ c.isDigit = true ∧ ¬(c = '0') := by
  unfold daySpaceOk
  rcases hd : s.data with _ | ⟨a, _ | ⟨b, t⟩⟩
  · simp
  · simp
  · cases t with
    | nil => simp [and_assoc]
    | cons x xs => simp

theorem dayTok_iff (s : String) :
    dayTokOk s = true ↔
      (((s.data.length = 1 ∨ s.data.length = 2) ∧ (∀ c ∈ s.data, c.isDigit = true) ∧
        1 ≤ strVal s ∧ strVal s ≤ 31) ∨
        (∃ c, s.data = [' ', c] ∧ c.isDigit = true ∧ ¬(c = '0'))) := by
  unfold dayTokOk
  rw [Bool.or_eq_true, dayDigits_iff, daySpace_iff]

theorem strptime_iff (s : String) : strptimeYmdOk s = true ↔ StrptimeSpec s := by
  unfold strptimeYmdOk StrptimeSpec
  rcases hsp : pySplit '-' s with _ | ⟨a, _ | ⟨b, _ | ⟨c, _ | ⟨d, t⟩⟩⟩⟩
  · simp
  · simp
  · simp
  · constructor
    · intro h
      refine ⟨a, b, c, rfl, ?_⟩
      simp only [Bool.and_eq_true, decide_eq_true_eq] at h
      obtain ⟨⟨⟨hy, hm⟩, hd2⟩, hcal⟩ := h
      exact ⟨(yearTok_iff a).mp hy, (monthTok_iff b).mp hm, (dayTok_iff c).mp hd2, hcal⟩
    · rintro ⟨ys, ms, ds, heq, hy, hm, hd2, hcal⟩
      injection heq with e1 heq
      injection heq with e2 heq
      injection heq with e3 _
      subst e1
      subst e2
      subst e3
      simp only [Bool.and_eq_true, decide_eq_true_eq]
      exact ⟨⟨⟨(yearTok_iff a).mpr hy, (monthTok_iff b).mpr hm⟩, (dayTok_iff c).mpr hd2⟩, hcal⟩
  · simp

/-- Claim C1 (code bug): evaluated on the record of the repository's own
`test_normalize_record` (name `"Record"`, `population_names` `"Population 1;
Population 2"`, `category_name` `"Category A"`, `visible` absent),
`normalize_record` derives both lists but leaves `visible` untouched — it
stays absent and is not coerced to false, and the tuple has no extension
fields (`is_icath` and friends) for the pipeline to coerce, contrary to
what the test asserts. -/
theorem c1_normalize_does_not_coerce_visible :
    normalize_record (Option.some c1Record) = Option.some c1After ∧
    c1After.category_names = Option.some ["Category A"] ∧
    c1After.population_tags = Option.some ["Population 1", "Population 2"] ∧
    c1After.visible = PyVal.none ∧
    ¬(c1After.visible = PyVal.bool false) := by
  refine ⟨rfl, by decide, by decide, by decide, by decide⟩

/-- Claim C2 counterexample: the record with name `"Valid"` and
`date_verified = "2015-8-27"` is accepted by `is_valid` even though the
string does not have a two-digit month, so validity is not equivalent to
the claimed strict four-digit/two-digit/two-digit format. -/
theorem c2_counterexample_single_digit_month :
    is_valid c2CounterRec = true ∧ specStrictYmdFormat "2015-8-27" = false := by
  refine ⟨by decide, by decide⟩

/-- Claim C2 (amended): for a record with a valid (non-blank) name and a
non-blank `date_verified = s`, `is_valid` is true exactly when `s` is
accepted by `strptime` with format `%Y-%m-%d`: it splits on `'-'` into an
exactly-four-digit year of value at least 1, a one-or-two-digit month in
1..12, and a day that is either one or two digits in 1..31 or a space
followed by a nonzero digit, with the day value within the Gregorian
length of that month of that year; a blank `date_verified` is treated as
absent (record valid); `"9/9/99"` is rejected and `"2015-08-27"`
accepted. -/
theorem c2_amended_date_validation :
    (∀ r nm s, r.name = Option.some nm → pyBlank nm = false →
      r.date_verified = Option.some s → pyBlank s = false →
      (is_valid r = true ↔ strptimeYmdOk s = true)) ∧
    (∀ r nm s, r.name = Option.some nm → pyBlank nm = false →
      r.date_verified = Option.some s → pyBlank s = true →
      is_valid r = true) ∧
    (∀ s, strptimeYmdOk s = true ↔ StrptimeSpec s) ∧
    is_valid c2BadDateRec = false ∧ is_valid c2GoodDateRec = true := by
  refine ⟨?_, ?_, strptime_iff, by decide, by decide⟩
  · intro r nm s h1 h2 h3 h4
    simp [is_valid, h1, h2, h3, h4]
  · intro r nm s h1 h2 h3 h4
    simp [is_valid, h1, h2, h3, h4]

/-- Witness for claim C2's amended theorem at a concrete record. -/
theorem c2_amended_witness :
    is_valid c2GoodDateRec = true ↔ strptimeYmdOk "2015-08-27" = true :=
  c2_amended_date_validation.1 c2GoodDateRec "Valid" "2015-08-27" rfl (by decide)
    rfl (by decide)

/-- Claim C3: a record whose name is absent, empty, or entirely
whitespace is invalid regardless of all other fields, and a record with
a non-blank name and no `date_verified` is valid. -/
theorem c3_name_gate :
    (∀ r, r.name = Option.none → is_valid r = false) ∧
    (∀ r, r.name = Option.some "" → is_valid r = false) ∧
    (∀ r s, r.name = Option.some s → pyIsspace s = true → is_valid r = false) ∧
    (∀ r s, r.name = Option.some s → pyBlank s = false →
      r.date_verified = Option.none → is_valid r = true) := by
  refine ⟨?_, ?_, ?_, ?_⟩
  · intro r h
    simp [is_valid, h]
  · intro r h
    simp [is_valid, h, pyBlank]
  · intro r s h hs
    simp [is_valid, h, pyBlank, hs]
  · intro r s h hs hd
    simp [is_valid, h, hs, hd]

/-- Witness for claim C3 at concrete records. -/
theorem c3_witness :
    is_valid (rad_record_default Option.none) = false ∧
    is_valid (rad_record_default (Option.some "   ")) = false ∧
    is_valid (rad_record_default (Option.some "Vida Sida")) = true := by
  refine ⟨c3_name_gate.1 (rad_record_default Option.none) rfl, ?_, ?_⟩
  · exact c3_name_gate.2.2.1 (rad_record_default (Option.some "   ")) "   " rfl (by decide)
  · exact c3_name_gate.2.2.2 (rad_record_default (Option.some "Vida Sida")) "Vida Sida"
      rfl (by decide) rfl

/-- Claim C4: `parse_delimited_list` returns the empty list on absent,
empty or all-whitespace input; otherwise its members are exactly the
non-empty trims of the `';'`-separated segments (so segments blank after
trimming are discarded and exact duplicates are collapsed); on the
spec's concrete inputs it yields exactly `["Item A"]`, and exactly three
elements `"Item A"`, `"Item B"`, `"Item C"`. -/
theorem c4_parse_delimited :
    parse_delimited_list Option.none = [] ∧
    parse_delimited_list (Option.some "") = [] ∧
    (∀ s, pyIsspace s = true → parse_delimited_list (Option.some s) = []) ∧
    (∀ s x, pyBlank s = false →
      (x ∈ parse_delimited_list (Option.some s) ↔
        ∃ seg ∈ pySplit ';' s, ¬(pyStrip seg = "") ∧ pyStrip seg = x)) ∧
    (∀ s, (parse_delimited_list (Option.some s)).Nodup) ∧
    parse_delimited_list (Option.some "; Item A ;") = ["Item A"] ∧
    (parse_delimited_list (Option.some "Item A ;Item B; Item C; Item A; Item B;;")).length = 3 ∧
    "Item A" ∈ parse_delimited_list (Option.some "Item A ;Item B; Item C; Item A; Item B;;") ∧
    "Item B" ∈ parse_delimited_list (Option.some "Item A ;Item B; Item C; Item A; Item B;;") ∧
    "Item C" ∈ parse_delimited_list (Option.some "Item A ;Item B; Item C; Item A; Item B;;") := by
  refine ⟨rfl, by decide, ?_, ?_, ?_, by decide, by decide, by decide, by decide, by decide⟩
  · intro s hs
    simp only [parse_delimited_list]
    rw [if_pos (show pyBlank s = true from by simp [pyBlank, hs])]
  · intro s x hs
    exact mem_parse_iff s hs x
  · intro s
    exact (parse_goodList (Option.some s)).1

/-- Witness for claim C4 at a concrete whitespace input and a concrete
membership instance. -/
theorem c4_witness :
    parse_delimited_list (Option.some "   ") = [] ∧
    ("Item A" ∈ parse_delimited_list (Option.some "; Item A ;") ↔
      ∃ seg ∈ pySplit ';' "; Item A ;", ¬(pyStrip seg = "") ∧ pyStrip seg = "Item A") :=
  ⟨c4_parse_delimited.2.2.1 "   " (by decide),
    c4_parse_delimited.2.2.2.1 "; Item A ;" "Item A" (by decide)⟩

/-- Claim C5: `convert_boolean` maps absent to absent, booleans to
themselves, the exact numerics 1 and 0 to true and false with every
other numeric to absent, text whose trimmed lowercase form is in the
true set to true, in the false set to false, and anything else
(including blank text) to absent; with the claimed concrete values. -/
theorem c5_convert_boolean :
    convert_boolean PyVal.none = Option.none ∧
    (∀ b, convert_boolean (PyVal.bool b) = Option.some b) ∧
    convert_boolean (PyVal.int 1) = Option.some true ∧
    convert_boolean (PyVal.int 0) = Option.some false ∧
    convert_boolean (PyVal.float 1) = Option.some true ∧
    convert_boolean (PyVal.float 0) = Option.some false ∧
    (∀ n : Int, ¬(n = 1) → ¬(n = 0) → convert_boolean (PyVal.int n) = Option.none) ∧
    (∀ q : Rat, ¬(q = 1) → ¬(q = 0) → convert_boolean (PyVal.float q) = Option.none) ∧
    (∀ s, pyLower (pyStrip s) ∈ true_values →
      convert_boolean (PyVal.str s) = Option.some true) ∧
    (∀ s, pyLower (pyStrip s) ∈ false_values →
      convert_boolean (PyVal.str s) = Option.some false) ∧
    (∀ s, ¬(pyLower (pyStrip s) ∈ true_values) → ¬(pyLower (pyStrip s) ∈ false_values) →
      convert_boolean (PyVal.str s) = Option.none) ∧
    convert_boolean (PyVal.bool true) = Option.some true ∧
    convert_boolean (PyVal.str "Yes") = Option.some true ∧
    convert_boolean (PyVal.str "N") = Option.some false ∧
    convert_boolean (PyVal.str "BAD STRING") = Option.none ∧
    convert_boolean (PyVal.int (-1)) = Option.none := by
  refine ⟨rfl, fun b => rfl, by decide, by decide, by decide, by decide, ?_, ?_, ?_, ?_, ?_,
    rfl, by decide, by decide, by decide, by decide⟩
  · intro n h1 h0
    simp [convert_boolean, h1, h0]
  · intro q h1 h0
    simp [convert_boolean, h1, h0]
  · intro s h
    have hnb : ¬((s.data.isEmpty || pyIsspace s) = true) := by
      intro hb
      have he : pyStrip s = "" := (pyStrip_eq_empty_iff s).mpr (by simpa [pyBlank] using hb)
      rw [he] at h
      exact absurd h (by decide)
    simp [convert_boolean, hnb, h]
  · intro s h
    have hnb : ¬((s.data.isEmpty || pyIsspace s) = true) := by
      intro hb
      have he : pyStrip s = "" := (pyStrip_eq_empty_iff s).mpr (by simpa [pyBlank] using hb)
      rw [he] at h
      exact absurd h (by decide)
    have hnt : ¬(pyLower (pyStrip s) ∈ true_values) := by
      intro ht
      simp only [true_values, List.mem_cons, List.not_mem_nil, or_false] at ht
      rcases ht with h1 | h1 | h1 | h1 | h1 <;> rw [h1] at h <;> exact absurd h (by decide)
    simp [convert_boolean, hnb, hnt, h]
  · intro s h1 h2
    by_cases hb : (s.data.isEmpty || pyIsspace s) = true
    · simp [convert_boolean, hb]
    · simp [convert_boolean, hb, h1, h2]

/-- Witness for claim C5 at concrete inputs. -/
theorem c5_witness :
    convert_boolean (PyVal.str " tRuE ") = Option.some true ∧
    convert_boolean (PyVal.int 5) = Option.none :=
  ⟨c5_convert_boolean.2.2.2.2.2.2.2.2.1 " tRuE " (by decide),
    c5_convert_boolean.2.2.2.2.2.2.1 5 (by decide) (by decide)⟩

/-- Claim C6: `convert_category_name` returns the record completely
unchanged when `category_names` is already non-absent and non-empty
(ignoring the raw `category_name`), and otherwise returns the record
with `category_names` set to `parse_delimited_list` of the raw field and
every other field unchanged; the same holds for
`convert_population_names` over `population_names`/`population_tags`;
on the spec's example the two pre-populated elements are kept and the
new raw value ignored. -/
theorem c6_conversion_guard :
    (∀ r l, r.category_names = Option.some l → ¬(l = []) →
      convert_category_name (Option.some r) = Option.some r) ∧
    (∀ r, (r.category_names = Option.none ∨ r.category_names = Option.some []) →
      convert_category_name (Option.some r) = Option.some
        { r with category_names := Option.some (parse_delimited_list r.category_name) }) ∧
    (∀ r l, r.population_tags = Option.some l → ¬(l = []) →
      convert_population_names (Option.some r) = Option.some r) ∧
    (∀ r, (r.population_tags = Option.none ∨ r.population_tags = Option.some []) →
      convert_population_names (Option.some r) = Option.some
        { r with population_tags := Option.some (parse_delimited_list r.population_names) }) ∧
    c6Rec.category_names = Option.some ["Category A", "Category B"] ∧
    c6Rec.category_name = Option.some "New Category 1" ∧
    convert_category_name (Option.some c6Rec) = Option.some c6Rec := by
  refine ⟨?_, ?_, ?_, ?_, rfl, rfl, by decide⟩
  · intro r l h hl
    show Option.some (convert_category_nameR r) = Option.some r
    rw [catR_of_has r (by rw [h, hasItems_some]; simp [List.isEmpty_iff, hl])]
  · intro r h
    show Option.some (convert_category_nameR r) = _
    rw [catR_of_not r (by rcases h with h | h <;> simp [h, hasItems])]
  · intro r l h hl
    show Option.some (convert_population_namesR r) = Option.some r
    rw [popR_of_has r (by rw [h]; simp [hasItems, List.isEmpty_iff, hl])]
  · intro r h
    show Option.some (convert_population_namesR r) = _
    rw [popR_of_not r (by rcases h with h | h <;> simp [h, hasItems])]

/-- Witness for claim C6 at the spec's concrete example record. -/
theorem c6_witness :
    convert_category_name (Option.some c6Rec) = Option.some c6Rec :=
  c6_conversion_guard.1 c6Rec ["Category A", "Category B"] rfl (by decide)

/-- Claim C7: the full normalization pipeline is idempotent —
normalizing twice equals normalizing once, for every record (including
the null record). -/
theorem c7_normalize_idempotent (record : Option RadRecord) :
    normalize_record (normalize_record record) = normalize_record record := by
  rcases record with _ | r
  · rfl
  · show Option.some (normalizeR (normalizeR r)) = Option.some (normalizeR r)
    rw [normalizeR_idem]

/-- Claim C8: the core operations are total on their modelled input
domains: a null record propagates through the conversion and
normalization operations as null rather than an error, `convert_boolean`
always yields one of its three values (an unrecognized value yielding
absent), and `is_valid` always yields a boolean. -/
theorem c8_total_and_null_propagation :
    convert_category_name Option.none = Option.none ∧
    convert_population_names Option.none = Option.none ∧
    normalize_record Option.none = Option.none ∧
    (∀ v, convert_boolean v = Option.some true ∨ convert_boolean v = Option.some false ∨
      convert_boolean v = Option.none) ∧
    (∀ r, is_valid r = true ∨ is_valid r = false) ∧
    convert_boolean (PyVal.str "BAD STRING") = Option.none := by
  refine ⟨rfl, rfl, rfl, ?_, ?_, by decide⟩
  · intro v
    rcases convert_boolean v with _ | b
    · exact Or.inr (Or.inr rfl)
    · cases b
      · exact Or.inr (Or.inl rfl)
      · exact Or.inl rfl
  · intro r
    rcases is_valid r with _ | _
    · exact Or.inr rfl
    · exact Or.inl rfl

/-- Claim C9: `is_valid` depends only on `name` and `date_verified` —
two records agreeing on those two fields get the same verdict however
much the remaining fields differ. -/
theorem c9_is_valid_depends_only_on_name_and_date (r₁ r₂ : RadRecord)
    (h1 : r₁.name = r₂.name) (h2 : r₁.date_verified = r₂.date_verified) :
    is_valid r₁ = is_valid r₂ := by
  unfold is_valid
  rw [h1, h2]

/-- Witness for claim C9: a default-constructed record and a record
differing in every other field validate identically. -/
theorem c9_witness : is_valid c9RecA = is_valid c9RecB :=
  c9_is_valid_depends_only_on_name_and_date c9RecA c9RecB rfl rfl

/-- Claim C10: after `normalize_record`, both `category_names` and
`population_tags` are materialized (non-absent) lists, and whichever of
them the pipeline derived (because the original field was absent or
empty) equals the parse of the raw field — a duplicate-free list of
non-empty, non-whitespace, trimmed strings. -/
theorem c10_normalized_lists_materialized (r : RadRecord) :
    normalize_record (Option.some r) = Option.some (normalizeR r) ∧
    ¬((normalizeR r).category_names = Option.none) ∧
    ¬((normalizeR r).population_tags = Option.none) ∧
    (hasItems r.category_names = false →
      (normalizeR r).category_names = Option.some (parse_delimited_list r.category_name) ∧
      goodList (parse_delimited_list r.category_name)) ∧
    (hasItems r.population_tags = false →
      (normalizeR r).population_tags = Option.some (parse_delimited_list r.population_names) ∧
      goodList (parse_delimited_list r.population_names)) := by
  refine ⟨rfl, ?_, ?_, ?_, ?_⟩
  · show ¬((convert_population_namesR (convert_category_nameR r)).category_names = Option.none)
    rw [popR_category_names]
    rcases hg : hasItems r.category_names with _ | _
    · rw [catR_of_not r hg]
      simp
    · rcases hc : r.category_names with _ | l
      · rw [hc] at hg
        simp [hasItems] at hg
      · rw [catR_of_has r hg, hc]
        simp
  · show ¬((convert_population_namesR (convert_category_nameR r)).population_tags = Option.none)
    rcases hg : hasItems (convert_category_nameR r).population_tags with _ | _
    · rw [popR_of_not _ hg]
      simp
    · rcases hc : (convert_category_nameR r).population_tags with _ | l
      · rw [hc] at hg
        simp [hasItems] at hg
      · rw [popR_of_has _ hg, hc]
        simp
  · intro h
    refine ⟨?_, parse_goodList r.category_name⟩
    show (convert_population_namesR (convert_category_nameR r)).category_names = _
    rw [popR_category_names, catR_of_not r h]
  · intro h
    refine ⟨?_, parse_goodList r.population_names⟩
    have hg : hasItems (convert_category_nameR r).population_tags = false := by
      rw [catR_population_tags]
      exact h
    show (convert_population_namesR (convert_category_nameR r)).population_tags = _
    rw [popR_of_not _ hg]
    rw [catR_population_names]

/-- Witness for claim C10 at a concrete record whose category list is
derived by the pipeline. -/
theorem c10_witness :
    hasItems c10Rec.category_names = false ∧
    (normalizeR c10Rec).category_names
      = Option.some (parse_delimited_list c10Rec.category_name) ∧
    goodList (parse_delimited_list c10Rec.category_name) :=
  ⟨by decide, ((c10_normalized_lists_materialized c10Rec).2.2.2.1 (by decide)).1,
    ((c10_normalized_lists_materialized c10Rec).2.2.2.1 (by decide)).2⟩
